import Mathlib

/-!
Verification of `src/convert.py`, a straight-line Blender batch-conversion
script.  The script is embedded as a list of host-application calls
(`convertScript`); the host application (Blender's reset / glTF import /
USD export operators) is external to the repository, so its behaviour is
modelled from the specification as a small-step interpreter (`runCall`,
`runScript`) over a host state holding the scene and a filesystem.
-/

/-- Mesh payload carried by an asset file: topology counts plus flags for
per-vertex normal data and material bindings. -/
structure Mesh where
  vertexCount : Nat
  faceCount : Nat
  hasNormals : Bool
  hasMaterials : Bool
deriving DecidableEq, Repr

/-- Contents of a file on disk, as far as the conversion is concerned:
a valid GLB asset, a USDZ archive (recording which export flags produced
it), or anything else. -/
inductive FileData where
  | glbFile (meshes : List Mesh)
  | usdzFile (meshes : List Mesh) (normals : Bool) (materials : Bool)
  | otherFile
deriving DecidableEq, Repr

/-- Filesystem as an association list from paths to file contents; the
most recent write for a path shadows older entries. -/
abbrev FileSystem := List (String × FileData)

/-- Look up the current contents at a path. -/
def fsLookup (fs : FileSystem) (p : String) : Option FileData :=
  (fs.find? (fun e => e.1 == p)).map (fun e => e.2)

/-- Write (create or overwrite) the contents at a path. -/
def fsWrite (fs : FileSystem) (p : String) (d : FileData) : FileSystem :=
  (p, d) :: fs

/-- The three host-application operators the script invokes, with the
arguments the source passes: `bpy.ops.wm.read_factory_settings(use_empty)`,
`bpy.ops.import_scene.gltf(filepath)`, and
`bpy.ops.wm.usd_export(filepath, export_normals, export_materials)`. -/
inductive HostCall where
  | readFactorySettings (useEmpty : Bool)
  | importGltf (filepath : String)
  | usdExport (filepath : String) (exportNormals : Bool) (exportMaterials : Bool)
deriving DecidableEq, Repr

/-- Failures the host can raise during a call. -/
inductive HostError where
  | fileNotFound (p : String)
  | invalidGlb (p : String)
deriving DecidableEq, Repr

/-- Host application state: the singleton in-memory scene and the
filesystem the host reads and writes. -/
structure HostState where
  scene : List Mesh
  fs : FileSystem
deriving DecidableEq, Repr

/-- The host's non-empty factory startup scene (what a reset without
`use_empty` would load). -/
def factoryScene : List Mesh :=
  [{ vertexCount := 8, faceCount := 6, hasNormals := true, hasMaterials := true }]

/-- Modelled from the spec: the semantics of the three host operators,
which live in the external host application, not in this repository.
Reset clears the scene (to empty when `use_empty` is set) and touches no
file.  Import requires an existing, valid GLB at the path and populates
the scene with its meshes, failing with the host's error otherwise and
writing nothing.  Export serializes the current scene to a USDZ archive
at the path, recording the normals/materials flags. -/
def runCall : HostCall → HostState → Except HostError HostState
  | .readFactorySettings useEmpty, s =>
      .ok { scene := if useEmpty then [] else factoryScene, fs := s.fs }
  | .importGltf p, s =>
      match fsLookup s.fs p with
      | some (.glbFile ms) => .ok { s with scene := s.scene ++ ms }
      | some _ => .error (.invalidGlb p)
      | none => .error (.fileNotFound p)
  | .usdExport p n m, s =>
      .ok { s with fs := fsWrite s.fs p (.usdzFile s.scene n m) }

/-- Run a straight-line sequence of host calls: each call's resulting
state feeds the next; the first failure stops execution and is returned
unmodified together with the state at the point of failure. -/
def runScript : List HostCall → HostState → HostState × Option HostError
  | [], s => (s, none)
  | c :: rest, s =>
      match runCall c s with
      | .ok s1 => runScript rest s1
      | .error e => (s, some e)

/-- Hardcoded input path from `src/convert.py` line 8. -/
def glb_path : String :=
  "Sources/MusicalWallpaper/Resources/Meshy_AI_shuttle_0227101350_texture.glb"

/-- Hardcoded output path from `src/convert.py` line 12. -/
def usdz_path : String :=
  "Sources/MusicalWallpaper/Resources/Meshy_AI_shuttle_0227101350_texture.usdz"

/-- The module body of `src/convert.py`: the exact sequence of host calls
the script makes, in source order (lines 5, 9, 13), with the exact
argument values passed.  No call's return value is bound or inspected. -/
def convertScript : List HostCall :=
  [ .readFactorySettings true,
    .importGltf glb_path,
    .usdExport usdz_path true true ]

/-- Execute the whole script from a given initial host state. -/
def runConvert (s : HostState) : HostState × Option HostError :=
  runScript convertScript s

/-- The fixed relative resource directory both hardcoded paths live under. -/
def resourceDir : String := "Sources/MusicalWallpaper/Resources/"

/-- Shared base name (directory plus stem) of the two hardcoded paths. -/
def assetStem : String :=
  "Sources/MusicalWallpaper/Resources/Meshy_AI_shuttle_0227101350_texture"

/-- Paths a single host call reads from the filesystem. -/
def callReads : HostCall → List String
  | .importGltf p => [p]
  | _ => []

/-- Paths a single host call writes to the filesystem. -/
def callWrites : HostCall → List String
  | .usdExport p _ _ => [p]
  | _ => []

/-- All filesystem reads a call sequence can perform, in order. -/
def scriptReads (cs : List HostCall) : List String := (cs.map callReads).flatten

/-- All filesystem writes a call sequence can perform, in order. -/
def scriptWrites (cs : List HostCall) : List String := (cs.map callWrites).flatten

/-- The export flags (normals, materials) of a call, when it is an export. -/
def exportFlags : HostCall → Option (Bool × Bool)
  | .usdExport _ n m => some (n, m)
  | _ => none

/-- Total vertex count of a list of meshes. -/
def totalVerts (ms : List Mesh) : Nat := (ms.map Mesh.vertexCount).sum

/-- Total face count of a list of meshes. -/
def totalFaces (ms : List Mesh) : Nat := (ms.map Mesh.faceCount).sum

/-- A concrete mesh used to exercise the theorems on explicit inputs. -/
def sampleMesh : Mesh :=
  { vertexCount := 100, faceCount := 52, hasNormals := true, hasMaterials := true }

/-- A concrete initial host state whose filesystem holds a valid GLB at
the script's input path and nothing else. -/
def sampleState : HostState :=
  { scene := [], fs := [(glb_path, FileData.glbFile [sampleMesh])] }

/-! Helper lemmas shared by several claims. -/

/-- Looking up the path just written returns the written contents. -/
theorem fsLookup_write_self (fs : FileSystem) (p : String) (d : FileData) :
    fsLookup (fsWrite fs p d) p = some d := by
  simp [fsLookup, fsWrite, List.find?]

/-- A write to one path leaves the contents of every other path unchanged. -/
theorem fsLookup_write_ne (fs : FileSystem) (p q : String) (d : FileData)
    (h : q ≠ p) : fsLookup (fsWrite fs p d) q = fsLookup fs q := by
  have hb : (p == q) = false := beq_eq_false_iff_ne.mpr (Ne.symm h)
  simp [fsLookup, fsWrite, List.find?, hb]

/-- Running the script on a state holding a valid GLB at the input path
succeeds and produces exactly the imported scene plus one write of the
USDZ archive at the output path. -/
theorem runConvert_of_valid (s : HostState) (ms : List Mesh)
    (h : fsLookup s.fs glb_path = some (FileData.glbFile ms)) :
    runConvert s =
      ({ scene := ms,
         fs := fsWrite s.fs usdz_path (FileData.usdzFile ms true true) }, none) := by
  simp [runConvert, convertScript, runScript, runCall, h]

/-- Every path other than the script's output path has the same contents
after a run of the script as before it, whatever the initial state. -/
theorem runConvert_fs_frame (s : HostState) (q : String) (hq : q ≠ usdz_path) :
    fsLookup (runConvert s).1.fs q = fsLookup s.fs q := by
  cases h : fsLookup s.fs glb_path with
  | none => simp [runConvert, convertScript, runScript, runCall, h]
  | some d =>
    cases d with
    | glbFile ms =>
      rw [runConvert_of_valid s ms h]
      exact fsLookup_write_ne s.fs usdz_path q _ hq
    | usdzFile ms n m => simp [runConvert, convertScript, runScript, runCall, h]
    | otherFile => simp [runConvert, convertScript, runScript, runCall, h]

/-- Claim C1: the program is a straight-line sequence of exactly three
host-application calls in this order — reset to an empty scene, import the
GLB, export to USDZ.  The embedded module body is literally this list of
three calls: there is no branching, looping or retrying construct, and no
call's return value is bound or consumed. -/
theorem c1_three_sequential_calls :
    convertScript =
      [HostCall.readFactorySettings true,
       HostCall.importGltf glb_path,
       HostCall.usdExport usdz_path true true] ∧
    convertScript.length = 3 :=
  ⟨rfl, rfl⟩

/-- Claim C2: when no file exists at the input path, the run fails at
the import step with the host's file-not-found error, the filesystem is
exactly the initial one, and in particular the output path holds exactly
what it held before — no partial or corrupt USDZ is written. -/
theorem c2_missing_input_no_output (s : HostState)
    (h : fsLookup s.fs glb_path = none) :
    runConvert s =
      ({ scene := [], fs := s.fs }, some (HostError.fileNotFound glb_path)) ∧
    fsLookup (runConvert s).1.fs usdz_path = fsLookup s.fs usdz_path := by
  have h1 : runConvert s =
      ({ scene := [], fs := s.fs }, some (HostError.fileNotFound glb_path)) := by
    simp [runConvert, convertScript, runScript, runCall, h]
  exact ⟨h1, by rw [h1]⟩

/-- Witness for C2: starting from a non-trivial scene and an empty
filesystem, the run stops at the import failure and writes nothing. -/
theorem c2_missing_input_no_output_witness :
    runConvert { scene := factoryScene, fs := [] } =
      ({ scene := [], fs := [] }, some (HostError.fileNotFound glb_path)) ∧
    fsLookup (runConvert { scene := factoryScene, fs := [] }).1.fs usdz_path =
      fsLookup ([] : FileSystem) usdz_path :=
  c2_missing_input_no_output { scene := factoryScene, fs := [] } rfl

/-- Claim C3: for any initial state, running the script is exactly the
sequential composition of the three calls in which the first failing
call's error is returned unmodified and no subsequent call executes. -/
theorem c3_failure_propagates_unmodified (s : HostState) :
    runConvert s =
      match runCall (HostCall.readFactorySettings true) s with
      | .error e => (s, some e)
      | .ok s1 =>
        match runCall (HostCall.importGltf glb_path) s1 with
        | .error e => (s1, some e)
        | .ok s2 =>
          match runCall (HostCall.usdExport usdz_path true true) s2 with
          | .error e => (s2, some e)
          | .ok s3 => (s3, none) := by
  cases h1 : runCall (HostCall.readFactorySettings true) s with
  | error e => simp [runConvert, convertScript, runScript, h1]
  | ok s1 =>
    cases h2 : runCall (HostCall.importGltf glb_path) s1 with
    | error e => simp [runConvert, convertScript, runScript, h1, h2]
    | ok s2 =>
      cases h3 : runCall (HostCall.usdExport usdz_path true true) s2 with
      | error e => simp [runConvert, convertScript, runScript, h1, h2, h3]
      | ok s3 => simp [runConvert, convertScript, runScript, h1, h2, h3]

/-- Claim C4: the export call is the one at index 2, it passes the
normals-inclusion flag and the materials-inclusion flag, and both are
true; moreover it is the only call carrying export flags. -/
theorem c4_export_flags_both_true :
    convertScript.filterMap exportFlags = [(true, true)] ∧
    convertScript[2]? = some (HostCall.usdExport usdz_path true true) :=
  ⟨rfl, rfl⟩

/-- Claim C5: the first call of the script is the reset with
`use_empty = True`; it leaves an empty scene whatever the previous scene
was, touches no file, and the import call comes after it (index 1), so
the import populates an empty scene. -/
theorem c5_reset_first_empties_scene (s : HostState) :
    convertScript.head? = some (HostCall.readFactorySettings true) ∧
    convertScript[1]? = some (HostCall.importGltf glb_path) ∧
    runCall (HostCall.readFactorySettings true) s =
      Except.ok { scene := ([] : List Mesh), fs := s.fs } :=
  ⟨rfl, rfl, rfl⟩

/-- Claim C6: both paths are hardcoded string constants equal to the fixed
relative resource directory followed by a file name; the directory is a
prefix of both, and it does not start with a path separator (it is
relative).  The embedded script `convertScript` is a closed constant: no
command-line argument, environment variable or configuration value occurs
in it. -/
theorem c6_paths_hardcoded_under_resource_dir :
    glb_path = resourceDir ++ "Meshy_AI_shuttle_0227101350_texture.glb" ∧
    usdz_path = resourceDir ++ "Meshy_AI_shuttle_0227101350_texture.usdz" ∧
    resourceDir.data.isPrefixOf glb_path.data = true ∧
    resourceDir.data.isPrefixOf usdz_path.data = true ∧
    (resourceDir.data.head? == some '/') = false := by
  decide

/-- Claim C7: the script's write footprint is the single write at the
output path and its read footprint is the single read at the input path;
the two paths differ, and every path other than the output path — the
input path included — has unchanged contents after the run. -/
theorem c7_single_write_input_untouched (s : HostState) (q : String)
    (hq : q ≠ usdz_path) :
    scriptWrites convertScript = [usdz_path] ∧
    scriptReads convertScript = [glb_path] ∧
    (glb_path == usdz_path) = false ∧
    fsLookup (runConvert s).1.fs q = fsLookup s.fs q :=
  ⟨rfl, rfl, by decide, runConvert_fs_frame s q hq⟩

/-- Witness for C7: on the concrete sample state the input GLB's contents
are identical before and after the run. -/
theorem c7_single_write_input_untouched_witness :
    scriptWrites convertScript = [usdz_path] ∧
    scriptReads convertScript = [glb_path] ∧
    (glb_path == usdz_path) = false ∧
    fsLookup (runConvert sampleState).1.fs glb_path =
      fsLookup sampleState.fs glb_path :=
  c7_single_write_input_untouched sampleState glb_path (by decide)

/-- Claim C8: starting from any state with a valid GLB at the input path,
the run leaves that GLB in place, writes the USDZ of its meshes at the
output path, and a second run immediately after finds the same input and
writes the same USDZ content — two successive runs produce the same
output. -/
theorem c8_two_runs_deterministic (s : HostState) (ms : List Mesh)
    (h : fsLookup s.fs glb_path = some (FileData.glbFile ms)) :
    fsLookup (runConvert s).1.fs glb_path = some (FileData.glbFile ms) ∧
    fsLookup (runConvert s).1.fs usdz_path =
      some (FileData.usdzFile ms true true) ∧
    fsLookup (runConvert (runConvert s).1).1.fs usdz_path =
      some (FileData.usdzFile ms true true) := by
  have h1 := runConvert_of_valid s ms h
  have hg : fsLookup (runConvert s).1.fs glb_path =
      some (FileData.glbFile ms) := by
    rw [h1]
    exact (fsLookup_write_ne s.fs usdz_path glb_path _ (by decide)).trans h
  refine ⟨hg, ?_, ?_⟩
  · rw [h1]
    exact fsLookup_write_self s.fs usdz_path _
  · rw [runConvert_of_valid (runConvert s).1 ms hg]
    exact fsLookup_write_self _ usdz_path _

/-- Witness for C8: two successive runs on the sample state yield the same
USDZ contents at the output path. -/
theorem c8_two_runs_deterministic_witness :
    fsLookup (runConvert sampleState).1.fs glb_path =
      some (FileData.glbFile [sampleMesh]) ∧
    fsLookup (runConvert sampleState).1.fs usdz_path =
      some (FileData.usdzFile [sampleMesh] true true) ∧
    fsLookup (runConvert (runConvert sampleState).1).1.fs usdz_path =
      some (FileData.usdzFile [sampleMesh] true true) :=
  c8_two_runs_deterministic sampleState [sampleMesh] (by decide)

/-- Claim C9: with a valid GLB at the input path the run succeeds (no
error), and the output path then holds a well-formed USDZ archive — the
model's rendering of a file a USD-compatible tool can open — whose total
vertex count and total face count equal those of the source GLB's
meshes. -/
theorem c9_valid_input_topology_preserved (s : HostState) (ms : List Mesh)
    (h : fsLookup s.fs glb_path = some (FileData.glbFile ms)) :
    (runConvert s).2 = none ∧
    ∃ out nrm mat,
      fsLookup (runConvert s).1.fs usdz_path =
        some (FileData.usdzFile out nrm mat) ∧
      totalVerts out = totalVerts ms ∧ totalFaces out = totalFaces ms := by
  rw [runConvert_of_valid s ms h]
  exact ⟨rfl, ms, true, true, fsLookup_write_self s.fs usdz_path _, rfl, rfl⟩

/-- Witness for C9: on the sample state the run succeeds and the exported
USDZ has the sample mesh's topology. -/
theorem c9_valid_input_topology_preserved_witness :
    (runConvert sampleState).2 = none ∧
    ∃ out nrm mat,
      fsLookup (runConvert sampleState).1.fs usdz_path =
        some (FileData.usdzFile out nrm mat) ∧
      totalVerts out = totalVerts [sampleMesh] ∧
      totalFaces out = totalFaces [sampleMesh] :=
  c9_valid_input_topology_preserved sampleState [sampleMesh] (by decide)

/-- Claim C10: the output path is the input path with only the extension
changed from .glb to .usdz (same directory and stem `assetStem`), the two
paths are distinct, the script's write footprint never contains the input
path, and on every initial state the run leaves the input path's contents
unchanged — the conversion can never overwrite its own input. -/
theorem c10_output_is_input_with_usdz_extension :
    (glb_path = assetStem ++ ".glb" ∧
     usdz_path = assetStem ++ ".usdz" ∧
     (glb_path == usdz_path) = false ∧
     (scriptWrites convertScript).contains glb_path = false) ∧
    ∀ s : HostState,
      fsLookup (runConvert s).1.fs glb_path = fsLookup s.fs glb_path :=
  ⟨by decide, fun s => runConvert_fs_frame s glb_path (by decide)⟩
